import Mathlib

/-!
Verification of the validation-and-reconciliation pipeline of
unifi-declarative-network, shallowly embedded from the Python sources
(src/unifi_declarative/validators.py, client.py, apply.py, cli.py).
Machine values are modeled as Nat/Int, Python dictionaries as association
lists, and fallible Python functions as Except-valued Lean functions whose
error constructors mirror the distinct raise sites of the source.
-/

deriving instance DecidableEq for Except

namespace Unifi

/-! ## String containment (Python `needle in s`) -/

/-- Boolean prefix test on character lists. -/
def isPrefixChars : List Char → List Char → Bool
  | [], _ => true
  | _ :: _, [] => false
  | a :: as, b :: bs => a == b && isPrefixChars as bs

/-- Boolean contiguous-substring test on character lists. -/
def isSubChars (needle : List Char) : List Char → Bool
  | [] => isPrefixChars needle []
  | b :: bs => isPrefixChars needle (b :: bs) || isSubChars needle bs

/-- Python `needle in hay` on strings: contiguous substring containment. -/
def containsSub (needle hay : String) : Bool :=
  isSubChars needle.data hay.data

theorem isPrefixChars_append (l t : List Char) : isPrefixChars l (l ++ t) = true := by
  induction l with
  | nil => rfl
  | cons a as ih => simp [isPrefixChars, ih]

theorem isSubChars_of_isPrefixChars (n h : List Char) (hp : isPrefixChars n h = true) :
    isSubChars n h = true := by
  cases h with
  | nil => exact hp
  | cons b bs => simp [isSubChars, hp]

/-! ## Validation errors

One constructor per distinct `raise ValidationError(...)` site of
validators.py; the constructors carry the data interpolated into the
corresponding Python message. -/

inductive VErr where
  /-- validators.py line 42: VLAN key "1" present in vlans.yaml; the message
  instructs that VLAN 1 (Default LAN) be managed manually via the controller
  UI, outside the declarative config. -/
  | vlan1KeyInConfig
  /-- validators.py line 62: unknown hardware profile. -/
  | unknownProfile (profile : String)
  /-- validators.py line 68: VLAN count exceeds the hardware ceiling. -/
  | tooManyVlans (profile : String) (maxVlans count : Nat)
  /-- validators.py line 101: missing required field. -/
  | missingField (field : String)
  /-- validators.py line 107: vlan_id is not an integer. -/
  | vlanIdNotInt
  /-- validators.py line 114: vlan_id == 1 forbidden in declarative config. -/
  | vlan1Forbidden
  /-- validators.py line 124: vlan_id outside [1, 4094]. -/
  | vlanIdOutOfRange (got : Int)
  /-- validators.py line 129: the 4095-specific reserved-identifier message. -/
  | vlan4095Reserved
  /-- validators.py line 152: an exception re-raised out of the DHCP pool
  check; carries the exception message. -/
  | dhcpError (msg : String)
  /-- validators.py line 239: US-8-60W switch definition missing. -/
  | missingSwitch
  /-- validators.py line 243: uplink_port not specified. -/
  | missingUplinkPort
  /-- validators.py line 248: uplink port assignment not found. -/
  | uplinkAssignmentNotFound (port : Int)
  /-- validators.py line 251: uplink must be a trunk. -/
  | uplinkNotTrunk
  /-- validators.py line 254: native VLAN on the uplink trunk must be 1. -/
  | uplinkNativeNot1
  /-- validators.py line 260: tagged VLANs mismatch, carrying the sorted
  expected and actual tag lists of the message. -/
  | taggedMismatch (expected actual : List Int)
deriving DecidableEq, Repr

/-! ## VLAN records (one block of vlans.yaml) -/

/-- Value found under the vlan_id key: an integer, or some non-integer YAML
value (whose exact content never matters to the verified claims, since
`isinstance(..., int)` rejects it). -/
inductive VId where
  | int (n : Int)
  | nonInt
deriving DecidableEq, Repr

/-- One VLAN configuration block. Absent dictionary keys are `none`.
Fields beyond those read by validators.py / apply.py / client.py are not
modeled. -/
structure VlanRecord where
  name : Option String := none
  subnet : Option String := none
  gateway : Option String := none
  vlan_id : Option VId := none
  dhcp_enabled : Option Bool := none
  enabled : Option Bool := none
  dhcp_start : Option String := none
  dhcp_stop : Option String := none
  igmp_snooping : Option Bool := none
deriving DecidableEq, Repr

/-- Split a character list at every occurrence of a separator character
(Python str.split with a one-character separator; the empty input yields
one empty part). -/
def splitCharsOn (sep : Char) : List Char → List (List Char)
  | [] => [[]]
  | c :: cs =>
    if c == sep then [] :: splitCharsOn sep cs
    else
      match splitCharsOn sep cs with
      | [] => [[c]]
      | w :: ws => (c :: w) :: ws

/-- String split on a one-character separator. -/
def splitStrOn (sep : Char) (s : String) : List String :=
  (splitCharsOn sep s.data).map String.mk

/-- str.lower(): Unicode-simple per-character lowering, Char.toLower on each
character (agrees with CPython on the ASCII profile names concerned). -/
def strToLower (s : String) : String :=
  String.mk (s.data.map Char.toLower)

/-- Accumulate decimal digits into a Nat. -/
def digitsToNat : List Char → Nat → Nat
  | [], acc => acc
  | c :: cs, acc => digitsToNat cs (acc * 10 + (c.toNat - 48))

/-- Python truthiness of an optional string value (None and "" are falsy). -/
def truthyStr : Option String → Bool
  | some s => !s.data.isEmpty
  | none => false

/-- Membership test for `field in vlan_config` over the modeled keys. -/
def fieldPresent (r : VlanRecord) : String → Bool
  | "name" => r.name.isSome
  | "subnet" => r.subnet.isSome
  | "gateway" => r.gateway.isSome
  | "vlan_id" => r.vlan_id.isSome
  | "dhcp_enabled" => r.dhcp_enabled.isSome
  | "enabled" => r.enabled.isSome
  | _ => false

/-- The required_fields list of validators.py lines 94-97. -/
def requiredFields : List String :=
  ["name", "subnet", "gateway", "vlan_id", "dhcp_enabled", "enabled"]

/-! ## IPv4 parsing (CPython ipaddress, restricted to IPv4)

`ipaddress.ip_address` / `ip_network` accept IPv4 and IPv6 text. Only the
IPv4 grammar is modeled: every address literal appearing in the repository
configuration and in the claims is dotted-quad, and the malformed inputs
exercised below are not valid IPv6 either, so parse success/failure agrees
with CPython on every input considered. An octet is 1-3 decimal digits,
value at most 255, with no leading zero (rejected by CPython >= 3.9). -/

def parseOctet (s : String) : Option Nat :=
  let cs := s.data
  if cs.isEmpty then none
  else if 3 < cs.length then none
  else if !cs.all Char.isDigit then none
  else if 1 < cs.length ∧ cs.head? = some '0' then none
  else
    let n := digitsToNat cs 0
    if n ≤ 255 then some n else none

/-- ipaddress.ip_address: numeric value of a dotted-quad IPv4 address, or
none when the text does not parse (CPython raises ValueError there). -/
def ip_address (s : String) : Option Nat :=
  match (splitStrOn '.' s).mapM parseOctet with
  | some [a, b, c, d] => some (((a * 256 + b) * 256 + c) * 256 + d)
  | _ => none

/-- ipaddress.ip_network with strict=False: address part plus an optional
prefix length at most 32 (host bits are allowed and would be masked; the
parsed value is unused by the source except for parse failure, so masking
is not modeled, and the prefix grammar is reduced to a decimal Nat). -/
def ip_network (s : String) : Option (Nat × Nat) :=
  match splitStrOn '/' s with
  | [addr] => (ip_address addr).map (fun n => (n, 32))
  | [addr, p] =>
    if !p.data.isEmpty ∧ p.data.all Char.isDigit then
      match ip_address addr with
      | some n =>
        let pr := digitsToNat p.data 0
        if pr ≤ 32 then some (n, pr) else none
      | none => none
    else none
  | _ => none

/-! ## DHCP pool check (validators.py lines 131-152) -/

/-- The try-block body of the DHCP pool check (lines 139-149): parse the
subnet, gateway and pool bounds in source order, then raise the overlap
ValidationError when the gateway falls inside the inclusive pool. Errors
are the exception messages: CPython formats parse failures as
"{value!r} does not appear to be an IPv4 or IPv6 address" (resp. network);
the repr quoting is dropped here as it cannot affect containment of the
quote-free needle tested by the handler. -/
def dhcpTryBody (subnet_str gateway dhcp_start dhcp_stop : String) : Except String Unit :=
  match ip_network subnet_str with
  | none => .error (subnet_str ++ " does not appear to be an IPv4 or IPv6 network")
  | some _ =>
  match ip_address gateway with
  | none => .error (gateway ++ " does not appear to be an IPv4 or IPv6 address")
  | some gw =>
  match ip_address dhcp_start with
  | none => .error (dhcp_start ++ " does not appear to be an IPv4 or IPv6 address")
  | some start =>
  match ip_address dhcp_stop with
  | none => .error (dhcp_stop ++ " does not appear to be an IPv4 or IPv6 address")
  | some stop =>
  if start ≤ gw ∧ gw ≤ stop then
    .error ("DHCP pool " ++ dhcp_start ++ "-" ++ dhcp_stop ++ " overlaps gateway " ++ gateway)
  else .ok ()

/-- The full DHCP pool check: guarded by truthiness of dhcp_enabled and of
dhcp_start/dhcp_stop/gateway; the except-handler (lines 150-152) re-raises
the caught exception only when its message contains "DHCP pool", and
otherwise swallows it. -/
def dhcpCheck (r : VlanRecord) : Except VErr Unit :=
  if r.dhcp_enabled.getD false = true then
    if (truthyStr r.dhcp_start && truthyStr r.dhcp_stop && truthyStr r.gateway) = true then
      match dhcpTryBody (r.subnet.getD "") (r.gateway.getD "") (r.dhcp_start.getD "") (r.dhcp_stop.getD "") with
      | .ok _ => .ok ()
      | .error e => if containsSub "DHCP pool" e = true then .error (.dhcpError e) else .ok ()
    else .ok ()
  else .ok ()

/-! ## validate_vlan_schema (validators.py lines 75-159) -/

/-- validate_vlan_schema: required fields in list order, integer check,
the vlan_id == 1 prohibition, the [1, 4094] range check, the (shadowed)
4095 check, then the DHCP pool check. The IGMP snooping step only emits a
non-fatal warning and never changes the result, so it is not modeled. -/
def validate_vlan_schema (r : VlanRecord) : Except VErr Unit :=
  match requiredFields.find? (fun f => !(fieldPresent r f)) with
  | some f => .error (.missingField f)
  | none =>
    match r.vlan_id with
    | some (.int n) =>
      if n = 1 then .error .vlan1Forbidden
      else if ¬(1 ≤ n ∧ n ≤ 4094) then .error (.vlanIdOutOfRange n)
      else if n = 4095 then .error .vlan4095Reserved
      else dhcpCheck r
    | _ => .error .vlanIdNotInt

/-! ## validate_vlan_count (validators.py lines 20-72) -/

/-- The hardware-specific limits dictionary (lines 52-57). -/
def limits : List (String × Nat) :=
  [("usg3p", 8), ("uxg-pro", 32), ("udm-se", 32), ("udm-pro", 32)]

/-- limits.get(hardware_profile.lower()) — line 59. -/
def lookupLimit (hardware_profile : String) : Option Nat :=
  (limits.find? (fun kv => kv.1 == strToLower hardware_profile)).map Prod.snd

/-- validate_vlan_count over the declared VLAN map (an association list
keyed by the YAML string keys): the "1"-key prohibition first, then the
profile lookup, then the count ceiling. -/
def validate_vlan_count (vlans : List (String × VlanRecord)) (hardware_profile : String) :
    Except VErr Unit :=
  if (vlans.map Prod.fst).contains "1" then .error .vlan1KeyInConfig
  else
    match lookupLimit hardware_profile with
    | none => .error (.unknownProfile hardware_profile)
    | some max_vlans =>
      if vlans.length > max_vlans then
        .error (.tooManyVlans hardware_profile max_vlans vlans.length)
      else .ok ()

/-! ## validate_uplink_trunk_config (validators.py lines 211-262) -/

/-- One port assignment of a switch. `ptype` stands for the "type" key.
The device/mac keys are read only by validate_hardware_inventory, which no
claim exercises, so they are not modeled. -/
structure PortAssign where
  ptype : Option String := none
  native_vlan : Option Int := none
  tagged_vlans : List Int := []
deriving DecidableEq, Repr

/-- One switch definition of hardware.yaml. Port-assignment keys may be
written as strings or integers in YAML; the source tries
ports.get(str(uplink_port)) or ports.get(uplink_port), normalized here to
integer keys. -/
structure SwitchDef where
  model : Option String := none
  uplink_port : Option Int := none
  port_assignments : List (Int × PortAssign) := []
deriving DecidableEq, Repr

/-- ports.get(uplink_port) over the normalized integer keys. -/
def lookupPort (s : SwitchDef) (p : Int) : Option PortAssign :=
  (s.port_assignments.find? (fun kv => kv.1 == p)).map Prod.snd

/-- Python sorted() on a list of integers. -/
def sortInts (l : List Int) : List Int :=
  List.insertionSort (· ≤ ·) l

/-- validate_uplink_trunk_config: locate the first US-8-60W switch; require
an uplink_port, an assignment for it, type trunk, native VLAN 1; then
compare sorted([int(v) for v in vlans.keys() if int(v) != 1]) with
sorted(uplink.get("tagged_vlans", [])). The vlans parameter is the list of
declared map keys already int-converted, as the source does with int(v);
the full hardware dict is reduced to its switches list, which is all
load_hardware_profile contributes here. -/
def validate_uplink_trunk_config (switches : List SwitchDef) (vlanKeys : List Int) :
    Except VErr Unit :=
  match switches.find? (fun s => s.model == some "US-8-60W") with
  | none => .error .missingSwitch
  | some target_switch =>
    match target_switch.uplink_port with
    | none => .error .missingUplinkPort
    | some up =>
      match lookupPort target_switch up with
      | none => .error (.uplinkAssignmentNotFound up)
      | some uplink =>
        if uplink.ptype ≠ some "trunk" then .error .uplinkNotTrunk
        else if uplink.native_vlan ≠ some 1 then .error .uplinkNativeNot1
        else
          let required_tags := sortInts (vlanKeys.filter (fun v => v != 1))
          let actual_tags := sortInts uplink.tagged_vlans
          if actual_tags ≠ required_tags then .error (.taggedMismatch required_tags actual_tags)
          else .ok ()

/-! ## Controller gateway client (client.py) -/

/-- An HTTP response: status code and (textual) body. -/
structure HttpResponse where
  status : Nat
  body : String := ""
deriving DecidableEq, Repr

/-- resp.raise_for_status() followed by resp.json() inside post/put, with the
HTTPError wrapped into RuntimeError "API error {status}: {text}" by the
except-branch (client.py lines 72-73 and 89-90). requests raises HTTPError
for 4xx and 5xx statuses. -/
def postResultOf (resp : HttpResponse) : Except String String :=
  if 400 ≤ resp.status ∧ resp.status < 600 then
    .error ("API error " ++ toString resp.status ++ ": " ++ resp.body)
  else .ok resp.body

/-- Body of UniFiClient.post (client.py lines 57-73), the unit wrapped by the
retry_on_429 decorator: issue the request (first response); on a 401 status,
one login() call and one retried request (second response) before
raise_for_status. Result is paired with the number of re-logins performed.
The Timeout/ConnectionError branches (no HTTP response at all) are not
modeled; they perform no re-login either. -/
def postOnce (resp1 resp2 : HttpResponse) : Except String String × Nat :=
  if resp1.status = 401 then (postResultOf resp2, 1) else (postResultOf resp1, 0)

/-- Body of UniFiClient.put (client.py lines 75-90), verbatim the same
request/401/relogin/raise_for_status structure as post. -/
def putOnce (resp1 resp2 : HttpResponse) : Except String String × Nat :=
  if resp1.status = 401 then (postResultOf resp2, 1) else (postResultOf resp1, 0)

/-- UniFiClient.get (client.py lines 51-55): one request, raise_for_status,
json(). There is no 401 branch and no login() call in the source; the
HTTPError of a 4xx/5xx status propagates to the caller unwrapped. -/
def getOnce (resp1 : HttpResponse) : Except String String × Nat :=
  if 400 ≤ resp1.status ∧ resp1.status < 600 then
    (.error ("HTTPError " ++ toString resp1.status), 0)
  else (.ok resp1.body, 0)

/-! ## retry_on_429 (client.py lines 11-27) -/

/-- Outcome of the retry wrapper: the surfaced result, the list of sleep
delays performed (in order), and how many times the wrapped operation was
invoked. The backoff base 2.0 (a float in the source, exact at the small
powers used) is modeled as the natural number 2, so delays are Nats. -/
structure RetryOutcome (α : Type) where
  result : Except String α
  delays : List Nat
  attempts : Nat
deriving DecidableEq, Repr

/-- The wrapper loop `for attempt in range(max_retries)`: `runs i` is the
outcome of invoking the wrapped operation on iteration `attempt = i`. The
last argument is the number of loop iterations remaining (max_retries -
attempt), so the Python retry condition `attempt < max_retries - 1` is
`0 < remaining` here; the `0` case is the unconditional fall-through call
after the loop (line 25), reachable only when max_retries = 0. An error is
retried exactly when its message contains "429" (the `"429" in str(e)`
test) and a later attempt remains, sleeping backoff ** attempt first;
otherwise it is re-raised. -/
def retryGo (runs : Nat → Except String α) (backoff : Nat) (attempt : Nat) :
    Nat → RetryOutcome α
  | 0 => ⟨runs attempt, [], 1⟩
  | remaining + 1 =>
    match runs attempt with
    | .ok a => ⟨.ok a, [], 1⟩
    | .error e =>
      if containsSub "429" e = true ∧ 0 < remaining then
        let rest := retryGo runs backoff (attempt + 1) remaining
        ⟨rest.result, backoff ^ attempt :: rest.delays, rest.attempts + 1⟩
      else ⟨.error e, [], 1⟩

/-- retry_on_429 with its default parameters max_retries=3, backoff=2.0, as
applied to post and put. -/
def retry_on_429 (runs : Nat → Except String α) : RetryOutcome α :=
  retryGo runs 2 0 3

/-! ## find_existing_vlan and the upsert verb (client.py lines 100-132) -/

/-- One remote network object as returned by list_networks. Only the fields
read by find_existing_vlan and upsert_vlan are modeled; `rid` stands for
the provider `_id` key. -/
structure RemoteNet where
  rid : Option String := none
  vlan : Option Int := none
  name : Option String := none
deriving DecidableEq, Repr

/-- Python str() of an optional integer (str(None) = "None"). -/
def pyStrOptInt : Option Int → String
  | some n => toString n
  | none => "None"

/-- Python str(vlan.get("vlan_id")). A non-integer value renders as some
other text; no verified claim reaches that case, since schema validation
rejects non-integer identities. -/
def pyStrVlanId (v : VlanRecord) : String :=
  match v.vlan_id with
  | some (.int n) => toString n
  | some .nonInt => "non-integer"
  | none => "None"

/-- find_existing_vlan (client.py lines 124-132): first remote object whose
str(vlan) equals str(vlan_id) or whose name equals the desired name (Python
None == None matches, mirrored by Option equality). -/
def find_existing_vlan (networks : List RemoteNet) (v : VlanRecord) : Option RemoteNet :=
  networks.find? (fun n => pyStrOptInt n.vlan == pyStrVlanId v || n.name == v.name)

/-- upsert_vlan issues a PUT when a truthy existing object carrying an _id
was found, else a POST (client.py lines 120-122). Only the verb is modeled;
the payload is the full desired record either way. -/
def upsertVerbIsPut (existing : Option RemoteNet) : Bool :=
  match existing with
  | some n => n.rid.isSome
  | none => false

/-! ## The apply upsert loop (apply.py lines 86-100) -/

/-- One observable action of the upsert loop: the VLAN-1 warning-and-skip,
or one upsert_vlan call (isPut tells PUT from POST). -/
inductive ApplyAction where
  | skipVlan1 (key : String)
  | upsert (key : String) (isPut : Bool)
deriving DecidableEq, Repr

/-- int(vlan.get("vlan_id", 0)) as tested by the skip guard (apply.py line
89): 0 when the key is absent. A non-integer value would be coerced (or
rejected) by Python int(); such records never reach this loop after schema
validation, and no claim exercises them, so they are mapped to 0. -/
def vlanIdOrZero (r : VlanRecord) : Int :=
  match r.vlan_id with
  | some (.int n) => n
  | _ => 0

/-- The per-VLAN loop of apply.main (apply.py lines 87-100): skip (with a
warning) any record whose identity is 1 unless both --migrate and
--i-understand-vlan1-risks are set; otherwise resolve the existing remote
object against the (stale, pre-loop) networks list and upsert — and then,
lines 97-98, resolve and upsert a second time, verbatim. -/
def applyLoop (migrate ack : Bool) (networks : List RemoteNet) :
    List (String × VlanRecord) → List ApplyAction
  | [] => []
  | (key, vlan) :: rest =>
    if vlanIdOrZero vlan = 1 ∧ ¬(migrate = true ∧ ack = true) then
      .skipVlan1 key :: applyLoop migrate ack networks rest
    else
      let act1 := ApplyAction.upsert key (upsertVerbIsPut (find_existing_vlan networks vlan))
      let act2 := ApplyAction.upsert key (upsertVerbIsPut (find_existing_vlan networks vlan))
      act1 :: act2 :: applyLoop migrate ack networks rest

/-! ## Network-request traces of the entry points (apply.py, cli.py) -/

/-- Kinds of network requests issued before/around the apply loop. -/
inductive NetEvent where
  | login
  | getSelf
  | listNetworks
  | exportBackup
deriving DecidableEq, Repr

/-- Flags of the apply argument parser (apply.py lines 16-20); `ack` stands
for --i-understand-vlan1-risks. -/
structure CliApplyArgs where
  dry_run : Bool := false
  check_mode : Bool := false
  migrate : Bool := false
  ack : Bool := false
  force : Bool := false
deriving DecidableEq, Repr

/-- The leading network events of the non-dry-run apply branch (apply.py
lines 57-63): login, list_networks, then the backup export. The later
events (upserts, provisioning) depend on the confirmation input and the
controller responses; no claim below depends on them, so the trace is
truncated after its unconditional prefix. -/
def applyNonDryLeadingEvents : List NetEvent :=
  [.login, .listNetworks, .exportBackup]

/-- Network events of apply.main (apply.py lines 32-58): validation runs
first and issues no requests (a failure exits before any network use);
check-mode returns before any connection; the diff is computed locally;
dry-run returns before the client is even constructed; only the remaining
branch touches the network. -/
def applyMainEvents (args : CliApplyArgs) (vlans : List (String × VlanRecord)) :
    List NetEvent :=
  if validate_vlan_count vlans "usg3p" ≠ .ok () then []
  else if (vlans.find? (fun kv => validate_vlan_schema kv.2 ≠ .ok ())).isSome then []
  else if args.check_mode then []
  else if args.dry_run then []
  else applyNonDryLeadingEvents

/-- The report printed by the dry-run branch (apply.py line 53). -/
def applyMainDryRunReport (vlans : List (String × VlanRecord)) : String :=
  "Dry-run: would reconcile " ++ toString vlans.length ++ " VLAN(s). No changes made."

/-- The cli.py subcommands. -/
inductive CliCmd where
  | validate
  | status
  | backup
  | rollback
  | applyCmd (args : CliApplyArgs)
deriving DecidableEq, Repr

/-- Network events of cli.main (cli.py lines 119-152): validate returns
before any client exists; every other subcommand constructs a client and
calls client.login() (lines 122-123) BEFORE dispatching — in particular the
apply subcommand logs in and only then delegates to apply.main (line 152),
whatever its flags say. rollback touches no further endpoint. -/
def cliMainEvents (cmd : CliCmd) (vlans : List (String × VlanRecord)) : List NetEvent :=
  match cmd with
  | .validate => []
  | .status => [.login, .getSelf]
  | .backup => [.login, .exportBackup]
  | .rollback => [.login]
  | .applyCmd args => .login :: applyMainEvents args vlans

/-! ## Persisted apply state (apply.py lines 111-116, cli.py lines 84-94) -/

/-- The desired configuration document as loaded from vlans.yaml: the vlans
mapping plus the optional controller/wan sections whose entries may hold
secrets. Other top-level sections are irrelevant to the claims. -/
structure DesiredConfig where
  vlans : List (String × VlanRecord) := []
  controller : Option (List (String × String)) := none
  wan : Option (List (String × String)) := none
deriving DecidableEq, Repr

/-- The keys popped by sanitize_state_for_storage (cli.py line 88). -/
def secretKeys : List String := ["password", "secret", "community", "radius_key"]

/-- Pop the secret keys from one section. -/
def stripSecrets (entries : List (String × String)) : List (String × String) :=
  entries.filter (fun kv => !(secretKeys.contains kv.1))

/-- sanitize_state_for_storage (cli.py lines 84-90): deep-copy the state and
remove the four secret keys from the controller and wan sections when
present. Defined inside cmd_apply, which cli.main never dispatches to (the
apply subcommand is routed to apply.main instead, cli.py lines 137-152). -/
def sanitize_state_for_storage (state : DesiredConfig) : DesiredConfig :=
  { state with
    controller := state.controller.map stripSecrets
    wan := state.wan.map stripSecrets }

/-- The content apply.main writes to config/.state/last-applied.yaml after a
successful apply (apply.py lines 114-115): yaml.safe_dump(desired, ...) of
the desired configuration itself, with no sanitization step. -/
def applyMainWrittenState (desired : DesiredConfig) : DesiredConfig :=
  desired

/-! ## Concrete fixtures -/

/-- A well-formed VLAN record (passes validate_vlan_schema). -/
def vlanServers : VlanRecord :=
  { name := some "Servers"
    subnet := some "10.0.1.0/26"
    gateway := some "10.0.1.1"
    vlan_id := some (VId.int 10)
    dhcp_enabled := some true
    enabled := some true
    dhcp_start := some "10.0.1.10"
    dhcp_stop := some "10.0.1.62" }

/-- The same record with the reserved 4095 identity. -/
def vlan4095Rec : VlanRecord :=
  { name := some "Bad"
    subnet := some "10.0.1.0/26"
    gateway := some "10.0.1.1"
    vlan_id := some (VId.int 4095)
    dhcp_enabled := some false
    enabled := some true }

/-- A DHCP-enabled record whose gateway text is the (malformed) string
"DHCP pool", so its parse-error message contains the handler needle. -/
def dhcpNeedleRec : VlanRecord :=
  { name := some "Lab"
    subnet := some "10.0.1.0/26"
    gateway := some "DHCP pool"
    vlan_id := some (VId.int 20)
    dhcp_enabled := some true
    enabled := some true
    dhcp_start := some "10.0.1.10"
    dhcp_stop := some "10.0.1.62" }

/-- A DHCP-enabled record with an ordinary malformed gateway. -/
def dhcpBadGwRec : VlanRecord :=
  { name := some "Lab2"
    subnet := some "10.0.1.0/26"
    gateway := some "badip"
    vlan_id := some (VId.int 21)
    dhcp_enabled := some true
    enabled := some true
    dhcp_start := some "10.0.1.10"
    dhcp_stop := some "10.0.1.62" }

/-- A desired configuration carrying secrets in both sections. -/
def secretConfig : DesiredConfig :=
  { vlans := [("10", vlanServers)]
    controller := some [("host", "10.0.1.2"), ("password", "hunter2")]
    wan := some [("kind", "pppoe"), ("secret", "s3cret")] }

/-- A US-8-60W switch whose uplink trunk repeats tag 10. -/
def dupTagSwitch : SwitchDef :=
  { model := some "US-8-60W"
    uplink_port := some 1
    port_assignments :=
      [(1, { ptype := some "trunk", native_vlan := some 1, tagged_vlans := [10, 10, 30] })] }

/-- A US-8-60W switch whose uplink trunk matches the declared set {10, 30}. -/
def goodSwitch : SwitchDef :=
  { model := some "US-8-60W"
    uplink_port := some 1
    port_assignments :=
      [(1, { ptype := some "trunk", native_vlan := some 1, tagged_vlans := [30, 10] })] }

/-- An operation that is rate-limited on every attempt. -/
def alwaysRateLimited : Nat → Except String String :=
  fun _ => .error "API error 429: rate limited"

/-! ## C1 — persisted apply state and secrets -/

/-- C1: the claim says the state file written after a successful apply is
the desired configuration with password/secret/community/radius_key removed
from the controller/wan sections. The write that actually runs, apply.py
line 115, dumps the desired configuration verbatim: on a configuration
carrying a controller password and a wan secret, the written content keeps
both, and differs from what sanitize_state_for_storage (the sanitizer in
cli.py, defined inside the never-dispatched cmd_apply) would produce. -/
theorem apply_state_write_keeps_secrets :
    applyMainWrittenState secretConfig = secretConfig ∧
    ("password", "hunter2") ∈ (applyMainWrittenState secretConfig).controller.getD [] ∧
    ("secret", "s3cret") ∈ (applyMainWrittenState secretConfig).wan.getD [] ∧
    ("password", "hunter2") ∉ (sanitize_state_for_storage secretConfig).controller.getD [] ∧
    ("secret", "s3cret") ∉ (sanitize_state_for_storage secretConfig).wan.getD [] ∧
    applyMainWrittenState secretConfig ≠ sanitize_state_for_storage secretConfig := by
  decide

/-! ## C2 — dry-run and network requests -/

/-- C2: the claim says an apply invocation with --dry-run issues no network
request of any kind, including login. The apply.main entry point honors
that (empty trace, and it prints the would-reconcile report), but cli.main
logs in before dispatching the apply subcommand, so the CLI invocation
`apply --dry-run` does issue a login request. -/
theorem cli_apply_dry_run_logs_in :
    NetEvent.login ∈ cliMainEvents (.applyCmd { dry_run := true }) [("10", vlanServers)] ∧
    applyMainEvents { dry_run := true } [("10", vlanServers)] = [] ∧
    applyMainDryRunReport [("10", vlanServers)] =
      "Dry-run: would reconcile 1 VLAN(s). No changes made." := by
  decide

/-! ## C3 — upserts per VLAN -/

/-- C3: the claim says each non-default declared VLAN gets exactly one
upsert (one POST or one PUT). The loop body of apply.py lines 95-98 resolves
and upserts twice: on a single declared VLAN with no matching remote
object, the loop issues two upserts (two POSTs), not one. The skip guard
for identity 1 behaves as claimed and is exercised by the second and third
conjuncts. -/
theorem apply_loop_double_upsert :
    applyLoop false false [] [("10", vlanServers)] =
      [.upsert "10" false, .upsert "10" false] ∧
    (applyLoop false false []
      [("1", { vlanServers with vlan_id := some (VId.int 1) })]) = [.skipVlan1 "1"] ∧
    (applyLoop true true []
      [("1", { vlanServers with vlan_id := some (VId.int 1) })]) =
      [.upsert "1" false, .upsert "1" false] := by
  decide

/-! ## C5 — 401 handling: counterexample for get -/

/-- C5 counterexample: the claim says every request of the client — get as
well as post and put — reacts to a 401 with exactly one automatic re-login
and retry. UniFiClient.get has no 401 branch: on a 401 response it performs
zero re-logins and surfaces the HTTP error directly. -/
theorem get_401_no_relogin :
    (getOnce ⟨401, "x"⟩).2 = 0 ∧
    ¬((getOnce ⟨401, "x"⟩).2 = 1) ∧
    (getOnce ⟨401, "x"⟩).1 = .error "HTTPError 401" := by
  decide

/-! ## C7 — duplicate tags: counterexample -/

/-- C7 counterexample: the claim says the tagged-VLAN comparison is
duplicate-independent (set equality). With declared VLANs {10, 30} and
tagged_vlans [10, 10, 30] — equal as sets, as the last two conjuncts
check — the validator nevertheless fails, because it compares sorted
lists. -/
theorem uplink_dup_tags_counterexample :
    validate_uplink_trunk_config [dupTagSwitch] [10, 30] =
      .error (.taggedMismatch [10, 30] [10, 10, 30]) ∧
    (([10, 10, 30] : List Int).all (fun x => ([10, 30] : List Int).contains x)) = true ∧
    (([10, 30] : List Int).all (fun x => ([10, 10, 30] : List Int).contains x)) = true := by
  decide

/-! ## C10 — needle-bearing parse error: counterexample -/

/-- C10 counterexample: the claim says any exception from a malformed
subnet/gateway/dhcp_start/dhcp_stop is silently swallowed, so such a record
passes schema validation, the overlap error being the only one that can
propagate. A malformed gateway whose text contains "DHCP pool" defeats the
message-based handler: its parse-error message embeds the value, the
handler re-raises it, and the record fails schema validation. -/
theorem dhcp_needle_error_propagates :
    ip_address "DHCP pool" = none ∧
    validate_vlan_schema dhcpNeedleRec =
      .error (.dhcpError "DHCP pool does not appear to be an IPv4 or IPv6 address") := by
  decide

/-! ## C5 — amended 401 behavior -/

/-- C5 amended: only post and put recover from a 401 — a 401 first response
triggers exactly one automatic re-login, and the surfaced outcome is that
of the one retried request; a non-401 first response performs no re-login;
get never re-logins at all. -/
theorem relogin_only_post_put :
    ∀ r1 r2 : HttpResponse,
      ((postOnce r1 r2).2 = if r1.status = 401 then 1 else 0) ∧
      ((putOnce r1 r2).2 = if r1.status = 401 then 1 else 0) ∧
      (r1.status = 401 →
        (postOnce r1 r2).1 = postResultOf r2 ∧ (putOnce r1 r2).1 = postResultOf r2) ∧
      ((getOnce r1).2 = 0) := by
  intro r1 r2
  refine ⟨?_, ?_, ?_, ?_⟩
  · by_cases h : r1.status = 401 <;> simp [postOnce, h]
  · by_cases h : r1.status = 401 <;> simp [putOnce, h]
  · intro h
    exact ⟨by simp [postOnce, h], by simp [putOnce, h]⟩
  · unfold getOnce
    split <;> rfl

/-- Witness for relogin_only_post_put at a concrete 401 response. -/
theorem relogin_only_post_put_w :
    (postOnce ⟨401, "denied"⟩ ⟨200, "ok"⟩).2 = 1 ∧
    (postOnce ⟨401, "denied"⟩ ⟨200, "ok"⟩).1 = postResultOf ⟨200, "ok"⟩ := by
  have h := relogin_only_post_put ⟨401, "denied"⟩ ⟨200, "ok"⟩
  exact ⟨by rw [h.1]; rfl, (h.2.2.1 rfl).1⟩

/-! ## C4 — retry on 429 -/

/-- C4: when every attempt of a post/put fails rate-limited (the error
message carries "429"), the wrapped operation is attempted exactly 3 times,
with sleeps of backoff^0 and backoff^1 between consecutive attempts —
strictly increasing — and the error of the last attempt propagates; a
non-429 failure on the first attempt propagates immediately, after exactly
one attempt and no sleep. -/
theorem retry_on_429_spec :
    (∀ (runs : Nat → Except String String) (es : Nat → String),
      (∀ i, i < 3 → runs i = .error (es i)) →
      (∀ i, i < 3 → containsSub "429" (es i) = true) →
      (retry_on_429 runs).result = .error (es 2) ∧
      (retry_on_429 runs).attempts = 3 ∧
      (retry_on_429 runs).delays = [2 ^ 0, 2 ^ 1] ∧
      List.Chain' (fun a b : Nat => a < b) (retry_on_429 runs).delays) ∧
    (∀ (runs : Nat → Except String String) (e : String),
      runs 0 = .error e → containsSub "429" e = false →
      (retry_on_429 runs).result = .error e ∧
      (retry_on_429 runs).attempts = 1 ∧
      (retry_on_429 runs).delays = []) := by
  constructor
  · intro runs es hruns h429
    have h0 := hruns 0 (by omega)
    have h1 := hruns 1 (by omega)
    have h2 := hruns 2 (by omega)
    have c0 := h429 0 (by omega)
    have c1 := h429 1 (by omega)
    have hout : retry_on_429 runs =
        ⟨.error (es 2), [2 ^ 0, 2 ^ 1], 3⟩ := by
      simp [retry_on_429, retryGo, h0, h1, h2, c0, c1]
    rw [hout]
    refine ⟨rfl, rfl, rfl, ?_⟩
    show List.Chain' (fun a b : Nat => a < b) [2 ^ 0, 2 ^ 1]
    refine List.chain'_cons.mpr ⟨by norm_num, List.chain'_singleton _⟩
  · intro runs e h0 hnot
    have hout : retry_on_429 runs = ⟨.error e, [], 1⟩ := by
      simp [retry_on_429, retryGo, h0, hnot]
    rw [hout]
    exact ⟨rfl, rfl, rfl⟩

/-- Witness for retry_on_429_spec: an operation rate-limited on all
attempts, and one failing with a timeout. -/
theorem retry_on_429_spec_w :
    ((retry_on_429 alwaysRateLimited).result = .error "API error 429: rate limited" ∧
      (retry_on_429 alwaysRateLimited).attempts = 3 ∧
      (retry_on_429 alwaysRateLimited).delays = [2 ^ 0, 2 ^ 1]) ∧
    ((retry_on_429 (fun _ => (.error "Controller timeout after 30s" : Except String String))).result =
        .error "Controller timeout after 30s" ∧
      (retry_on_429 (fun _ =>
        (.error "Controller timeout after 30s" : Except String String))).attempts = 1) := by
  constructor
  · have h := retry_on_429_spec.1 alwaysRateLimited (fun _ => "API error 429: rate limited")
      (fun i _ => rfl)
      (fun i _ => by
        show containsSub "429" "API error 429: rate limited" = true
        decide)
    exact ⟨h.1, h.2.1, h.2.2.1⟩
  · have h := retry_on_429_spec.2
      (fun _ => (.error "Controller timeout after 30s" : Except String String))
      "Controller timeout after 30s" rfl (by decide)
    exact ⟨h.1, h.2.1⟩

/-! ## C8 — the shadowed 4095 branch -/

/-- Recognizer for the 4095-specific reserved-identifier error. -/
def isReserved4095Err : Except VErr Unit → Bool
  | .error .vlan4095Reserved => true
  | _ => false

theorem dhcpCheck_not_reserved (r : VlanRecord) :
    isReserved4095Err (dhcpCheck r) = false := by
  unfold dhcpCheck
  split
  · split
    · split
      · rfl
      · split <;> rfl
    · rfl
  · rfl

/-- C8: the claim says a record with vlan_id 4095 fails with the error that
specifically flags 4095 as the reserved 802.1Q identifier. It does not: the
range check of line 123 fires first (4095 > 4094) and raises the generic
out-of-range error, and the dedicated 4095 branch of line 128 is
unreachable on every input. -/
theorem vlan4095_gets_generic_error :
    validate_vlan_schema vlan4095Rec = .error (.vlanIdOutOfRange 4095) ∧
    ∀ r : VlanRecord, isReserved4095Err (validate_vlan_schema r) = false := by
  constructor
  · decide
  · intro r
    unfold validate_vlan_schema
    cases hf : requiredFields.find? (fun f => !(fieldPresent r f)) with
    | some f => rfl
    | none =>
      cases hv : r.vlan_id with
      | none => rfl
      | some vid =>
        cases vid with
        | nonInt => rfl
        | int n =>
          by_cases h1 : n = 1
          · simp [h1, isReserved4095Err]
          · by_cases h2 : 1 ≤ n ∧ n ≤ 4094
            · have h3 : ¬ n = 4095 := by omega
              simp [h1, h2, h3, dhcpCheck_not_reserved]
            · simp [h1, h2, isReserved4095Err]

/-! ## C9 — schema validation makes the VLAN-1 skip unreachable -/

/-- A record accepted by validate_vlan_schema carries an integer vlan_id
different from 1 (and in range), so the skip-guard value is not 1. -/
theorem vlanIdOrZero_ne_one_of_schema_ok (r : VlanRecord)
    (h : validate_vlan_schema r = .ok ()) : vlanIdOrZero r ≠ 1 := by
  unfold validate_vlan_schema at h
  split at h
  · exact absurd h (by simp)
  · split at h
    · rename_i n heq
      by_cases h1 : n = 1
      · simp [h1] at h
      · unfold vlanIdOrZero
        rw [heq]
        exact fun hc => h1 (by exact_mod_cast hc)
    · exact absurd h (by simp)

/-- Unfolding the loop over records none of which carries identity 1: the
skip branch is never taken, and every record contributes its upsert. -/
theorem applyLoop_of_no_vlan1 (migrate ack : Bool) (networks : List RemoteNet) :
    ∀ l : List (String × VlanRecord), (∀ kv ∈ l, vlanIdOrZero kv.2 ≠ 1) →
      (∀ a ∈ applyLoop migrate ack networks l, ∀ k, a ≠ ApplyAction.skipVlan1 k) ∧
      (∀ kv ∈ l, ApplyAction.upsert kv.1
          (upsertVerbIsPut (find_existing_vlan networks kv.2)) ∈
        applyLoop migrate ack networks l) := by
  intro l
  induction l with
  | nil =>
    intro _
    exact ⟨by intro a ha; simp [applyLoop] at ha, by intro kv hkv; simp at hkv⟩
  | cons kv rest ih =>
    intro h
    obtain ⟨key, vlan⟩ := kv
    have hne : vlanIdOrZero vlan ≠ 1 := h (key, vlan) (by simp)
    have hrest := ih (fun kv hkv => h kv (List.mem_cons_of_mem _ hkv))
    have hcond : ¬(vlanIdOrZero vlan = 1 ∧ ¬(migrate = true ∧ ack = true)) :=
      fun hc => hne hc.1
    have hunf : applyLoop migrate ack networks ((key, vlan) :: rest) =
        ApplyAction.upsert key (upsertVerbIsPut (find_existing_vlan networks vlan)) ::
        ApplyAction.upsert key (upsertVerbIsPut (find_existing_vlan networks vlan)) ::
        applyLoop migrate ack networks rest := by
      simp only [applyLoop]
      rw [if_neg hcond]
    constructor
    · intro a ha k
      rw [hunf] at ha
      rcases List.mem_cons.mp ha with h1 | ha
      · simp [h1]
      · rcases List.mem_cons.mp ha with h1 | ha
        · simp [h1]
        · exact hrest.1 a ha k
    · intro kv hkv
      rw [hunf]
      rcases List.mem_cons.mp hkv with h1 | hkv
      · rw [h1]
        exact List.mem_cons_self _ _
      · exact List.mem_cons_of_mem _ (List.mem_cons_of_mem _ (hrest.2 kv hkv))

/-- C9: a declared set accepted by validate_vlan_count and by per-record
validate_vlan_schema contains no record of identity 1, so the VLAN-1
skip/warning branch of the apply loop is unreachable (whatever the migrate
and acknowledgment flags and the remote state) and every declared VLAN is
upserted. -/
theorem schema_pass_no_vlan1_skip :
    ∀ (vlans : List (String × VlanRecord)) (profile : String) (migrate ack : Bool)
      (networks : List RemoteNet),
      validate_vlan_count vlans profile = .ok () →
      (∀ kv ∈ vlans, validate_vlan_schema kv.2 = .ok ()) →
      (∀ kv ∈ vlans, vlanIdOrZero kv.2 ≠ 1) ∧
      (∀ a ∈ applyLoop migrate ack networks vlans, ∀ k, a ≠ ApplyAction.skipVlan1 k) ∧
      (∀ kv ∈ vlans, ApplyAction.upsert kv.1
          (upsertVerbIsPut (find_existing_vlan networks kv.2)) ∈
        applyLoop migrate ack networks vlans) := by
  intro vlans profile migrate ack networks _ hschema
  have hno : ∀ kv ∈ vlans, vlanIdOrZero kv.2 ≠ 1 :=
    fun kv hkv => vlanIdOrZero_ne_one_of_schema_ok kv.2 (hschema kv hkv)
  have hloop := applyLoop_of_no_vlan1 migrate ack networks vlans hno
  exact ⟨hno, hloop.1, hloop.2⟩

/-- Witness for schema_pass_no_vlan1_skip on a concrete passing set. -/
theorem schema_pass_no_vlan1_skip_w :
    ApplyAction.upsert "10" (upsertVerbIsPut (find_existing_vlan [] vlanServers)) ∈
      applyLoop false false [] [("10", vlanServers)] := by
  have h := schema_pass_no_vlan1_skip [("10", vlanServers)] "usg3p" false false []
    (by decide) (by decide)
  exact h.2.2 ("10", vlanServers) (by simp)

/-! ## C10 — amended exception swallowing in the DHCP check -/

/-- The overlap message raised at validators.py line 147 always contains
the handler needle "DHCP pool" (it is its literal prefix). -/
theorem overlap_msg_has_needle (a b c : String) :
    containsSub "DHCP pool" ("DHCP pool " ++ a ++ "-" ++ b ++ " overlaps gateway " ++ c) =
      true := by
  unfold containsSub
  apply isSubChars_of_isPrefixChars
  have hsplit : ("DHCP pool " : String).data = ("DHCP pool" : String).data ++ [' '] := by
    decide
  simp only [String.data_append, hsplit, List.append_assoc]
  exact isPrefixChars_append _ _

/-- A record whose earlier checks pass reduces validate_vlan_schema to the
DHCP pool check. -/
theorem validate_eq_dhcpCheck (r : VlanRecord) (n : Int)
    (hf : requiredFields.find? (fun f => !(fieldPresent r f)) = none)
    (hv : r.vlan_id = some (VId.int n)) (h1 : n ≠ 1) (h2 : 1 ≤ n) (h3 : n ≤ 4094) :
    validate_vlan_schema r = dhcpCheck r := by
  have h4 : n ≠ 4095 := by omega
  simp only [validate_vlan_schema, hf, hv]
  rw [if_neg h1, if_neg (not_not_intro ⟨h2, h3⟩), if_neg h4]

/-- C10 amended: in the DHCP pool check, an exception arising from a
malformed subnet, gateway, dhcp_start or dhcp_stop value is silently
swallowed — and the record passes schema validation — unless the
exception message contains the substring "DHCP pool", in which case it
propagates as the validation error; since parse-error messages embed the
offending value, a malformed value containing that substring propagates.
The pool-overlaps-gateway error always contains the needle, so it always
propagates. -/
theorem dhcp_exception_swallow_spec :
    (∀ (r : VlanRecord) (n : Int) (e : String),
      requiredFields.find? (fun f => !(fieldPresent r f)) = none →
      r.vlan_id = some (VId.int n) → n ≠ 1 → 1 ≤ n → n ≤ 4094 →
      dhcpTryBody (r.subnet.getD "") (r.gateway.getD "") (r.dhcp_start.getD "")
          (r.dhcp_stop.getD "") = .error e →
      ((containsSub "DHCP pool" e = false → validate_vlan_schema r = .ok ()) ∧
       (r.dhcp_enabled.getD false = true →
        (truthyStr r.dhcp_start && truthyStr r.dhcp_stop && truthyStr r.gateway) = true →
        containsSub "DHCP pool" e = true →
        validate_vlan_schema r = .error (.dhcpError e)))) ∧
    (∀ a b c : String,
      containsSub "DHCP pool" ("DHCP pool " ++ a ++ "-" ++ b ++ " overlaps gateway " ++ c) =
        true) := by
  constructor
  · intro r n e hf hv h1 h2 h3 hbody
    have hvd := validate_eq_dhcpCheck r n hf hv h1 h2 h3
    constructor
    · intro hno
      rw [hvd]
      unfold dhcpCheck
      by_cases hen : r.dhcp_enabled.getD false = true
      · rw [if_pos hen]
        by_cases htr :
            (truthyStr r.dhcp_start && truthyStr r.dhcp_stop && truthyStr r.gateway) = true
        · rw [if_pos htr]
          simp [hbody, hno]
        · rw [if_neg htr]
      · rw [if_neg hen]
    · intro hen htr hyes
      rw [hvd]
      unfold dhcpCheck
      rw [if_pos hen, if_pos htr]
      simp [hbody, hyes]
  · exact overlap_msg_has_needle

/-- Witness for dhcp_exception_swallow_spec: a DHCP-enabled record with an
unparseable gateway (message free of the needle) passes validation. -/
theorem dhcp_exception_swallow_spec_w :
    validate_vlan_schema dhcpBadGwRec = .ok () := by
  have h := dhcp_exception_swallow_spec.1 dhcpBadGwRec 21
    "badip does not appear to be an IPv4 or IPv6 address"
    (by decide) (by decide) (by decide) (by decide) (by decide) (by decide)
  exact h.1 (by decide)

/-! ## C6 — validate_vlan_count characterization -/

/-- Closed-form value of the limits lookup: the profile name is matched
case-insensitively (the source lowercases it first). -/
theorem lookupLimit_eq (p : String) :
    lookupLimit p =
      (if strToLower p = "usg3p" then some 8
       else if strToLower p = "uxg-pro" then some 32
       else if strToLower p = "udm-se" then some 32
       else if strToLower p = "udm-pro" then some 32
       else none) := by
  by_cases h1 : strToLower p = "usg3p"
  · have b1 : (("usg3p" : String) == strToLower p) = true := by
      rw [beq_iff_eq]; exact h1.symm
    simp [lookupLimit, limits, List.find?, b1, h1]
  · have b1 : (("usg3p" : String) == strToLower p) = false := by
      rw [beq_eq_false_iff_ne]; exact fun hh => h1 hh.symm
    by_cases h2 : strToLower p = "uxg-pro"
    · have b2 : (("uxg-pro" : String) == strToLower p) = true := by
        rw [beq_iff_eq]; exact h2.symm
      simp [lookupLimit, limits, List.find?, b1, b2, h1, h2]
    · have b2 : (("uxg-pro" : String) == strToLower p) = false := by
        rw [beq_eq_false_iff_ne]; exact fun hh => h2 hh.symm
      by_cases h3 : strToLower p = "udm-se"
      · have b3 : (("udm-se" : String) == strToLower p) = true := by
          rw [beq_iff_eq]; exact h3.symm
        simp [lookupLimit, limits, List.find?, b1, b2, b3, h1, h2, h3]
      · have b3 : (("udm-se" : String) == strToLower p) = false := by
          rw [beq_eq_false_iff_ne]; exact fun hh => h3 hh.symm
        by_cases h4 : strToLower p = "udm-pro"
        · have b4 : (("udm-pro" : String) == strToLower p) = true := by
            rw [beq_iff_eq]; exact h4.symm
          simp [lookupLimit, limits, List.find?, b1, b2, b3, b4, h1, h2, h3, h4]
        · have b4 : (("udm-pro" : String) == strToLower p) = false := by
            rw [beq_eq_false_iff_ne]; exact fun hh => h4 hh.symm
          simp [lookupLimit, limits, List.find?, b1, b2, b3, b4, h1, h2, h3, h4]

/-- C6: validate_vlan_count succeeds iff the (case-normalized) profile name
is one of the four enumerated profiles — usg3p with ceiling 8; uxg-pro,
udm-se, udm-pro with ceiling 32 — the key "1" does not appear among the
declared keys, and the declared count is at most the ceiling. The "1" key
fails unconditionally (before the profile is even looked at) with the
dedicated manage-VLAN-1-outside-the-declarative-system error, and an
unrecognized profile fails with the unknown-profile error. -/
theorem validate_vlan_count_spec :
    ∀ (vlans : List (String × VlanRecord)) (profile : String),
      (vlans.map Prod.fst).Nodup →
      ((validate_vlan_count vlans profile = .ok ()) ↔
        ("1" ∉ vlans.map Prod.fst ∧
          ∃ m, lookupLimit profile = some m ∧ vlans.length ≤ m)) ∧
      (∀ m, lookupLimit profile = some m ↔
        ((strToLower profile = "usg3p" ∧ m = 8) ∨
         (strToLower profile = "uxg-pro" ∧ m = 32) ∨
         (strToLower profile = "udm-se" ∧ m = 32) ∨
         (strToLower profile = "udm-pro" ∧ m = 32))) ∧
      ("1" ∈ vlans.map Prod.fst →
        validate_vlan_count vlans profile = .error .vlan1KeyInConfig) ∧
      (lookupLimit profile = none → "1" ∉ vlans.map Prod.fst →
        validate_vlan_count vlans profile = .error (.unknownProfile profile)) := by
  intro vlans profile hnd
  refine ⟨?_, ?_, ?_, ?_⟩
  · unfold validate_vlan_count
    by_cases hc : (vlans.map Prod.fst).contains "1" = true
    · rw [if_pos hc]
      have hmem : "1" ∈ vlans.map Prod.fst := by simpa using hc
      constructor
      · intro h; exact absurd h (by simp)
      · rintro ⟨hno, _⟩; exact absurd hmem hno
    · rw [if_neg hc]
      have hmem : "1" ∉ vlans.map Prod.fst := by simpa using hc
      cases hl : lookupLimit profile with
      | none =>
        dsimp only
        constructor
        · intro h; exact absurd h (by simp)
        · rintro ⟨_, m, hm, _⟩; exact Option.noConfusion hm
      | some mx =>
        dsimp only
        by_cases hlen : vlans.length > mx
        · rw [if_pos hlen]
          constructor
          · intro h; exact absurd h (by simp)
          · rintro ⟨_, m, hm, hle⟩
            have hmx : mx = m := by injection hm
            omega
        · rw [if_neg hlen]
          constructor
          · intro _; exact ⟨hmem, mx, rfl, by omega⟩
          · intro _; rfl
  · intro m
    rw [lookupLimit_eq]
    split_ifs with h1 h2 h3 h4
    · simp [h1, eq_comm]
    · simp [h1, h2, eq_comm]
    · simp [h1, h2, h3, eq_comm]
    · simp [h1, h2, h3, h4, eq_comm]
    · simp [h1, h2, h3, h4]
  · intro hmem
    have hc : (vlans.map Prod.fst).contains "1" = true := by
      simpa using hmem
    unfold validate_vlan_count
    rw [if_pos hc]
  · intro hl hmem
    have hc : ¬((vlans.map Prod.fst).contains "1" = true) := by
      simpa using hmem
    unfold validate_vlan_count
    rw [if_neg hc, hl]

/-- Witness for validate_vlan_count_spec on a concrete declared set. -/
theorem validate_vlan_count_spec_w :
    validate_vlan_count [("10", vlanServers)] "usg3p" = .ok () ∧
    lookupLimit "usg3p" = some 8 := by
  have h := validate_vlan_count_spec [("10", vlanServers)] "usg3p" (by decide)
  refine ⟨(h.1).mpr ⟨by decide, 8, ?_, by decide⟩, ?_⟩ <;>
    exact (h.2.1 8).mpr (Or.inl ⟨by decide, rfl⟩)

/-! ## C7 — amended uplink trunk characterization -/

/-- Equal sorted lists is exactly permutation (multiset) equality: order
never matters, multiplicities always do. -/
theorem sortInts_eq_iff (l1 l2 : List Int) :
    sortInts l1 = sortInts l2 ↔ List.Perm l1 l2 := by
  unfold sortInts
  constructor
  · intro h
    have p1 := List.perm_insertionSort (fun a b : Int => a ≤ b) l1
    have p2 := List.perm_insertionSort (fun a b : Int => a ≤ b) l2
    have hp : List.Perm (List.insertionSort (fun a b : Int => a ≤ b) l1) l2 := by
      rw [h]; exact p2
    exact p1.symm.trans hp
  · intro h
    refine List.eq_of_perm_of_sorted ?_
      (List.sorted_insertionSort _ l1) (List.sorted_insertionSort _ l2)
    exact (List.perm_insertionSort _ l1).trans
      (h.trans (List.perm_insertionSort _ l2).symm)

/-- C7 amended: validate_uplink_trunk_config succeeds iff the first switch
of model US-8-60W exists, names an uplink port carrying an assignment of
type trunk with native VLAN 1, and the assignment's tagged-VLAN collection
is a permutation of the declared VLAN IDs without 1 — the comparison is of
sorted lists, hence order-independent but multiplicity-sensitive:
duplicated tags cause failure even when the underlying sets are equal. -/
theorem validate_uplink_trunk_spec :
    (∀ (switches : List SwitchDef) (vlanKeys : List Int),
      (validate_uplink_trunk_config switches vlanKeys = .ok ()) ↔
        (∃ t, switches.find? (fun s => s.model == some "US-8-60W") = some t ∧
          ∃ up, t.uplink_port = some up ∧
          ∃ uplink, lookupPort t up = some uplink ∧
            uplink.ptype = some "trunk" ∧ uplink.native_vlan = some 1 ∧
            List.Perm uplink.tagged_vlans (vlanKeys.filter (fun v => v != 1)))) ∧
    (∀ l1 l2 : List Int, sortInts l1 = sortInts l2 ↔ List.Perm l1 l2) := by
  refine ⟨?_, sortInts_eq_iff⟩
  intro switches vlanKeys
  unfold validate_uplink_trunk_config
  cases hfind : switches.find? (fun s => s.model == some "US-8-60W") with
  | none => simp
  | some t =>
    dsimp only
    cases hup : t.uplink_port with
    | none => simp [hup]
    | some up =>
      dsimp only
      cases hlp : lookupPort t up with
      | none => simp [hup, hlp]
      | some uplink =>
        dsimp only
        by_cases hty : uplink.ptype = some "trunk"
        · rw [if_neg (not_not_intro hty)]
          by_cases hnv : uplink.native_vlan = some 1
          · rw [if_neg (not_not_intro hnv)]
            by_cases htags :
                sortInts uplink.tagged_vlans = sortInts (vlanKeys.filter (fun v => v != 1))
            · rw [if_neg (not_not_intro htags)]
              constructor
              · intro _
                exact ⟨t, rfl, up, hup, uplink, hlp, hty, hnv,
                  (sortInts_eq_iff _ _).mp htags⟩
              · intro _; rfl
            · rw [if_pos htags]
              constructor
              · intro h; exact absurd h (by simp)
              · rintro ⟨t', ht', up', hup', uplink', hlp', _, _, hperm⟩
                obtain rfl : t = t' := by injection ht'
                rw [hup] at hup'
                obtain rfl : up = up' := by injection hup'
                rw [hlp] at hlp'
                obtain rfl : uplink = uplink' := by injection hlp'
                exact absurd ((sortInts_eq_iff _ _).mpr hperm) htags
          · rw [if_pos hnv]
            constructor
            · intro h; exact absurd h (by simp)
            · rintro ⟨t', ht', up', hup', uplink', hlp', _, hnv', _⟩
              obtain rfl : t = t' := by injection ht'
              rw [hup] at hup'
              obtain rfl : up = up' := by injection hup'
              rw [hlp] at hlp'
              obtain rfl : uplink = uplink' := by injection hlp'
              exact absurd hnv' hnv
        · rw [if_pos hty]
          constructor
          · intro h; exact absurd h (by simp)
          · rintro ⟨t', ht', up', hup', uplink', hlp', hty', _, _⟩
            obtain rfl : t = t' := by injection ht'
            rw [hup] at hup'
            obtain rfl : up = up' := by injection hup'
            rw [hlp] at hlp'
            obtain rfl : uplink = uplink' := by injection hlp'
            exact absurd hty' hty

/-- Witness for validate_uplink_trunk_spec on a concrete matching trunk
(declared keys given in an order different from the tagged list). -/
theorem validate_uplink_trunk_spec_w :
    validate_uplink_trunk_config [goodSwitch] [10, 30] = .ok () := by
  refine (validate_uplink_trunk_spec.1 [goodSwitch] [10, 30]).mpr
    ⟨goodSwitch, by decide, 1, by decide,
      ⟨some "trunk", some 1, [30, 10]⟩, by decide, rfl, rfl, ?_⟩
  decide

end Unifi
